import Mathlib

/-!
# Verification of the `frei` two-stream radiative-transfer kernel

Shallow embedding of `src/frei/twostream.py` over the real numbers.

Modelling conventions:
* `jnp` arrays over the wavelength axis are modelled elementwise: every
  array-valued expression becomes a real-valued function of its scalar
  inputs, and `jnp.where(c, a, b)` becomes an `if c then a else b` on reals.
* The unit-aware (`astropy.units`) code path (`delta_t_i`, `convective_flux`,
  `delta_z_i`, ...) is modelled with all quantities expressed in CGS units,
  so that the normalisation `/(u.erg/u.cm**2/u.s)` in `delta_t_i` is the
  identity and the constants `k_B`, `m_p`, `sigma_sb` take their CGS values.
  The blackbody routine `BB` keeps its own local constants exactly as they
  appear in the source (a deliberately separate fast numeric path there).
* Python's `**` on floats is modelled by `Real.rpow` for fractional
  exponents and by monoid powers for literal integer exponents.
* `jax` semantics for dynamically-indexed arrays inside `jit`: gather
  indices are clamped to the valid range, out-of-bounds scatter updates are
  dropped.  These appear explicitly in the embedding of `emit`.
-/

namespace Frei

/-- Physical constants of the unit-aware path, CGS values
(`astropy.constants`): Boltzmann constant in erg/K. -/
def k_B : ℝ := 1.380649e-16

/-- Proton mass in grams (`astropy.constants.m_p`). -/
def m_p : ℝ := 1.67262192369e-24

/-- Stefan–Boltzmann constant in erg cm⁻² s⁻¹ K⁻⁴. -/
def sigma_sb : ℝ := 5.670374419e-5

/-- Source `E(omega_0, g_0)`: improved two-stream correction term,
Deitrick et al. (2020) Eqn 19.  Source: `jnp.where(omega_0 > 0.1, <quadratic>, 1)`. -/
noncomputable def E (omega_0 g_0 : ℝ) : ℝ :=
  if omega_0 > 0.1 then
    1.225 - 0.1582 * g_0 - 0.1777 * omega_0 - 0.07465 * g_0 ^ 2
      + 0.2351 * omega_0 * g_0 - 0.05582 * omega_0 ^ 2
  else 1

/-- Source `true_fun(x) = 1.0 / x` (helper for the vectorized conditional). -/
noncomputable def true_fun (x : ℝ) : ℝ := 1.0 / x

/-- Source `false_fun(x) = 0.` (helper for the vectorized conditional). -/
def false_fun (_x : ℝ) : ℝ := 0

/-- Source `vectorized_cond(x)`: elementwise-guarded reciprocal, modelled on one
array element.  The source computes `true_op = where(x>0, x, 0.5)`,
`false_op = where(x>0, 0, x)` and selects `where(x>0, 1/true_op, 0)`. -/
noncomputable def vectorized_cond (x : ℝ) : ℝ :=
  let true_op := if x > 0 then x else 0.5
  let false_op := if x > 0 then (0 : ℝ) else x
  if x > 0 then true_fun true_op else false_fun false_op

/-- Model of `jnp.expm1(x) = exp(x) - 1` (exact mathematical meaning). -/
noncomputable def expm1 (x : ℝ) : ℝ := Real.exp x - 1

/-- Source `BB(temperature, wavenumber)`: Planck function in wavenumber form with
the source's own local SI/micron constants, guarded elementwise through
`vectorized_cond` at zero/negative temperature and at zero wavenumber. -/
noncomputable def BB (temperature wavenumber : ℝ) : ℝ :=
  let h : ℝ := 6.62607015e-34
  let c : ℝ := 299792458.0e6
  let kB : ℝ := 1.380649e-23
  let one_over_denom :=
    vectorized_cond (expm1 (h * c / kB * wavenumber * vectorized_cond temperature))
  1e18 * (2 * h * c ^ 2 * wavenumber ^ 3 * one_over_denom)

/-- Transmission through one layer, Deitrick (2020) Equation B2:
`T = exp(-2 * (E*(E-omega_0)*(1-omega_0*g_0)) ** 0.5 * delta_tau)`. -/
noncomputable def transmission (omega_0 g_0 delta_tau : ℝ) : ℝ :=
  Real.exp (-2 * (E omega_0 g_0 * (E omega_0 g_0 - omega_0) *
    (1 - omega_0 * g_0)) ^ (0.5 : ℝ) * delta_tau)

/-- Coefficient `zeta_plus`, Malik (2017) Equation 13. -/
noncomputable def zeta_plus (omega_0 g_0 : ℝ) : ℝ :=
  0.5 * (1 + ((E omega_0 g_0 - omega_0) / E omega_0 g_0 /
    (1 - omega_0 * g_0)) ^ (0.5 : ℝ))

/-- Coefficient `zeta_minus`, Malik (2017) Equation 13. -/
noncomputable def zeta_minus (omega_0 g_0 : ℝ) : ℝ :=
  0.5 * (1 - ((E omega_0 g_0 - omega_0) / E omega_0 g_0 /
    (1 - omega_0 * g_0)) ^ (0.5 : ℝ))

/-- Coefficient `chi`, Malik (2017) Equation 12. -/
noncomputable def chi (omega_0 g_0 delta_tau : ℝ) : ℝ :=
  zeta_minus omega_0 g_0 ^ 2 * transmission omega_0 g_0 delta_tau ^ 2 -
    zeta_plus omega_0 g_0 ^ 2

/-- Coefficient `xi`, Malik (2017) Equation 12. -/
noncomputable def xi (omega_0 g_0 delta_tau : ℝ) : ℝ :=
  zeta_plus omega_0 g_0 * zeta_minus omega_0 g_0 *
    (1 - transmission omega_0 g_0 delta_tau ^ 2)

/-- Coefficient `psi`, Malik (2017) Equation 12. -/
noncomputable def psi (omega_0 g_0 delta_tau : ℝ) : ℝ :=
  (zeta_minus omega_0 g_0 ^ 2 - zeta_plus omega_0 g_0 ^ 2) *
    transmission omega_0 g_0 delta_tau

/-- The local `pi` coefficient of `propagate_fluxes`:
`pi = jnp.pi * (1 - omega_0) / (E - omega_0)`. -/
noncomputable def pi (omega_0 g_0 : ℝ) : ℝ :=
  Real.pi * (1 - omega_0) / (E omega_0 g_0 - omega_0)

/-- The local `Bprime` of `propagate_fluxes`, Malik (2017) Equation 5 with
the division-by-zero guard: `x = where(delta_tau == 0, 1, delta_tau)`,
`Bprime = where(delta_tau == 0, 0, (B1 - B2)/x)`. -/
noncomputable def Bprime (B1 B2 delta_tau : ℝ) : ℝ :=
  let x := if delta_tau = 0 then (1 : ℝ) else delta_tau
  if delta_tau = 0 then 0 else (B1 - B2) / x

/-- Source `propagate_fluxes`: improved two-stream equations for one layer pair,
Deitrick (2022) Eqn B4.  Returns `(F_2_up, F_1_down)`.  The source's unused
Eddington coefficient `eps` is kept as an argument (its default is 0.5). -/
noncomputable def propagate_fluxes
    (lam F_1_up F_2_down T_1 T_2 delta_tau omega_0 g_0 _eps : ℝ) : ℝ × ℝ :=
  let ch := chi omega_0 g_0 delta_tau
  let xs := xi omega_0 g_0 delta_tau
  let ps := psi omega_0 g_0 delta_tau
  let pp := pi omega_0 g_0
  let wavenumber := 1.0 / lam
  let B1 := BB T_1 wavenumber
  let B2 := BB T_2 wavenumber
  let Bp := Bprime B1 B2 delta_tau
  let F_2_up := 1 / ch * (
    ps * F_1_up - xs * F_2_down +
      pp * (B2 * (ch + xs) - ps * B1 +
        Bp / (2 * E omega_0 g_0 * (1 - omega_0 * g_0)) * (ch - ps - xs)))
  let F_1_down := 1 / ch * (
    ps * F_2_down - xs * F_1_up +
      pp * (B1 * (ch + xs) - ps * B2 +
        Bp / (2 * E omega_0 g_0 * (1 - omega_0 * g_0)) * (xs + ps - ch)))
  (F_2_up, F_1_down)

/-- At zero single-scattering albedo the correction term is exactly 1. -/
theorem E_zero (g_0 : ℝ) : E 0 g_0 = 1 := by
  unfold E
  norm_num

/-- At `delta_tau = 0` the transmission is exactly 1, for any scattering
parameters. -/
theorem transmission_dtau_zero (omega_0 g_0 : ℝ) : transmission omega_0 g_0 0 = 1 := by
  unfold transmission
  rw [mul_zero, Real.exp_zero]

theorem zeta_plus_at_zero : zeta_plus 0 0 = 1 := by
  unfold zeta_plus
  rw [E_zero]
  norm_num [Real.one_rpow]

theorem zeta_minus_at_zero : zeta_minus 0 0 = 0 := by
  unfold zeta_minus
  rw [E_zero]
  norm_num [Real.one_rpow]

theorem chi_at_zero : chi 0 0 0 = -1 := by
  unfold chi
  rw [zeta_plus_at_zero, zeta_minus_at_zero, transmission_dtau_zero]
  norm_num

theorem xi_at_zero : xi 0 0 0 = 0 := by
  unfold xi
  rw [zeta_minus_at_zero]
  ring

theorem psi_at_zero : psi 0 0 0 = -1 := by
  unfold psi
  rw [zeta_plus_at_zero, zeta_minus_at_zero, transmission_dtau_zero]
  norm_num

theorem Bprime_dtau_zero (B1 B2 : ℝ) : Bprime B1 B2 0 = 0 := by
  simp [Bprime]

/-- A layer with `delta_tau = 0`, `omega_0 = g_0 = 0` and equal boundary
temperatures is transparent: the upward flux passes through unchanged and so
does the downward flux (the blackbody terms cancel since `B1 = B2`). -/
theorem propagate_transparent (lam F1 F2 T1 eps : ℝ) :
    propagate_fluxes lam F1 F2 T1 T1 0 0 0 eps = (F1, F2) := by
  simp only [propagate_fluxes, chi_at_zero, xi_at_zero, psi_at_zero, Bprime_dtau_zero]
  norm_num

/-- C2 counterexample: with `delta_tau = 0`, `omega_0 = g_0 = 0`, equal layer
temperatures `T1 = T2 = 0`, `F_up_in = 1` and `F_down_in = 2`, the claim's
crossed pairing `F_up_out = F_down_in` and `F_down_out = F_up_in` fails:
`propagate_fluxes` returns `(1, 2)`, i.e. each output equals the
**same-direction** input. -/
theorem c2_counterexample :
    ¬ ((propagate_fluxes 1 1 2 0 0 0 0 0 0.5).1 = 2 ∧
       (propagate_fluxes 1 1 2 0 0 0 0 0 0.5).2 = 1) := by
  rw [propagate_transparent 1 1 2 0 0.5]
  norm_num

/-- C2 (amended): with zero optical depth (`delta_tau = 0`), `omega_0 = g_0 = 0`
and equal layer temperatures `T1 = T2`, `propagate_fluxes` returns
`F_up_out = F_up_in` and `F_down_out = F_down_in`: the transparent layer passes
each flux through unattenuated, and the blackbody contributions cancel. -/
theorem c2_transparent_layer (lam F_up_in F_down_in T eps : ℝ) :
    propagate_fluxes lam F_up_in F_down_in T T 0 0 0 eps = (F_up_in, F_down_in) :=
  propagate_transparent lam F_up_in F_down_in T eps

/-- C6: for `omega_0 ≤ 0.1` (and `g_0` in the physical range `[-1, 1]`),
`E(omega_0, g_0) = 1` exactly; for `omega_0 > 0.1` it equals the quadratic
polynomial with the fixed empirical coefficients. -/
theorem c6_E_cases (omega_0 g_0 : ℝ) (hg : -1 ≤ g_0 ∧ g_0 ≤ 1) :
    (omega_0 ≤ 0.1 → E omega_0 g_0 = 1) ∧
    (0.1 < omega_0 → E omega_0 g_0 =
      1.225 - 0.1582 * g_0 - 0.1777 * omega_0 - 0.07465 * g_0 ^ 2
        + 0.2351 * omega_0 * g_0 - 0.05582 * omega_0 ^ 2) := by
  constructor
  · intro h
    unfold E
    rw [if_neg (not_lt.mpr h)]
  · intro h
    unfold E
    rw [if_pos h]

theorem c6_E_cases_witness :
    (((-1 : ℝ) ≤ 0 ∧ (0 : ℝ) ≤ 1) ∧ ((0 : ℝ) ≤ 0.1) ∧ E 0 0 = 1) ∧
    (((-1 : ℝ) ≤ 0 ∧ (0 : ℝ) ≤ 1) ∧ ((0.1 : ℝ) < 0.2) ∧ E 0.2 0 =
      1.225 - 0.1582 * 0 - 0.1777 * 0.2 - 0.07465 * (0 : ℝ) ^ 2
        + 0.2351 * 0.2 * 0 - 0.05582 * (0.2 : ℝ) ^ 2) :=
  ⟨⟨⟨by norm_num, by norm_num⟩, by norm_num,
      (c6_E_cases 0 0 ⟨by norm_num, by norm_num⟩).1 (by norm_num)⟩,
   ⟨⟨by norm_num, by norm_num⟩, by norm_num,
      (c6_E_cases 0.2 0 ⟨by norm_num, by norm_num⟩).2 (by norm_num)⟩⟩

theorem vectorized_cond_of_nonpos {x : ℝ} (hx : x ≤ 0) : vectorized_cond x = 0 := by
  simp only [vectorized_cond, false_fun]
  rw [if_neg (not_lt.mpr hx)]

theorem vectorized_cond_zero : vectorized_cond 0 = 0 :=
  vectorized_cond_of_nonpos le_rfl

/-- C5: `BB` returns exactly zero whenever the temperature is zero or
negative, and exactly zero at zero wavenumber; the guard goes through the
elementwise selection `vectorized_cond`, never through an undefined
expression. -/
theorem c5_BB_guard (temperature wavenumber : ℝ) :
    (temperature ≤ 0 → BB temperature wavenumber = 0) ∧ BB temperature 0 = 0 := by
  constructor
  · intro hT
    simp only [BB, expm1]
    rw [vectorized_cond_of_nonpos hT, mul_zero, Real.exp_zero, sub_self,
      vectorized_cond_zero]
    ring
  · simp only [BB, expm1]
    rw [mul_zero, zero_mul, Real.exp_zero, sub_self, vectorized_cond_zero]
    ring

theorem c5_BB_guard_witness :
    (((0 : ℝ) ≤ 0) ∧ BB 0 1 = 0) ∧ BB 5 0 = 0 :=
  ⟨⟨le_rfl, (c5_BB_guard 0 1).1 le_rfl⟩, (c5_BB_guard 5 0).2⟩

/-- C8: the source term derivative `Bprime` used by `propagate_fluxes`
equals `(B1 - B2)/delta_tau` whenever `delta_tau ≠ 0` and is exactly zero at
`delta_tau = 0` (the divisor is swapped to 1 there, so no division by zero
occurs). -/
theorem c8_Bprime_guard (B1 B2 delta_tau : ℝ) :
    (delta_tau ≠ 0 → Bprime B1 B2 delta_tau = (B1 - B2) / delta_tau) ∧
    (delta_tau = 0 → Bprime B1 B2 delta_tau = 0) := by
  constructor
  · intro h
    simp only [Bprime]
    rw [if_neg h, if_neg h]
  · intro h
    simp only [Bprime]
    rw [if_pos h]

theorem c8_Bprime_guard_witness :
    ((3 : ℝ) ≠ 0 ∧ Bprime 5 2 3 = (5 - 2) / 3) ∧
    ((0 : ℝ) = 0 ∧ Bprime 5 2 0 = 0) :=
  ⟨⟨by norm_num, (c8_Bprime_guard 5 2 3).1 (by norm_num)⟩,
   ⟨rfl, (c8_Bprime_guard 5 2 0).2 rfl⟩⟩

/-- Python's `** 0.5` (`Real.rpow` at exponent 0.5) is the square root. -/
theorem rpow_half_eq_sqrt (x : ℝ) : x ^ (0.5 : ℝ) = Real.sqrt x := by
  rw [Real.sqrt_eq_rpow]
  norm_num

/-- C1: over the physical domain (`0 ≤ omega_0`, `omega_0 ≤ E`,
`omega_0 * g_0 ≤ 1`), `propagate_fluxes`'s coefficients are exactly the
closed forms of the claim: `T = exp(-2·√(E(E-omega_0)(1-omega_0 g_0))·delta_tau)`,
`zeta_± = (1 ± √((E-omega_0)/E/(1-omega_0 g_0)))/2`,
`chi = zeta_minus²T² - zeta_plus²`, `xi = zeta_plus·zeta_minus·(1-T²)`,
`psi = (zeta_minus² - zeta_plus²)·T`, `pi = π·(1-omega_0)/(E-omega_0)`. -/
theorem c1_two_stream_coefficients (omega_0 g_0 delta_tau : ℝ)
    (h0 : 0 ≤ omega_0) (hE : omega_0 ≤ E omega_0 g_0) (hg : omega_0 * g_0 ≤ 1) :
    transmission omega_0 g_0 delta_tau =
      Real.exp (-2 * Real.sqrt (E omega_0 g_0 * (E omega_0 g_0 - omega_0) *
        (1 - omega_0 * g_0)) * delta_tau) ∧
    zeta_plus omega_0 g_0 =
      (1 + Real.sqrt ((E omega_0 g_0 - omega_0) / E omega_0 g_0 /
        (1 - omega_0 * g_0))) / 2 ∧
    zeta_minus omega_0 g_0 =
      (1 - Real.sqrt ((E omega_0 g_0 - omega_0) / E omega_0 g_0 /
        (1 - omega_0 * g_0))) / 2 ∧
    chi omega_0 g_0 delta_tau =
      ((1 - Real.sqrt ((E omega_0 g_0 - omega_0) / E omega_0 g_0 /
          (1 - omega_0 * g_0))) / 2) ^ 2 *
        Real.exp (-2 * Real.sqrt (E omega_0 g_0 * (E omega_0 g_0 - omega_0) *
          (1 - omega_0 * g_0)) * delta_tau) ^ 2 -
      ((1 + Real.sqrt ((E omega_0 g_0 - omega_0) / E omega_0 g_0 /
          (1 - omega_0 * g_0))) / 2) ^ 2 ∧
    xi omega_0 g_0 delta_tau =
      ((1 + Real.sqrt ((E omega_0 g_0 - omega_0) / E omega_0 g_0 /
          (1 - omega_0 * g_0))) / 2) *
      ((1 - Real.sqrt ((E omega_0 g_0 - omega_0) / E omega_0 g_0 /
          (1 - omega_0 * g_0))) / 2) *
      (1 - Real.exp (-2 * Real.sqrt (E omega_0 g_0 * (E omega_0 g_0 - omega_0) *
          (1 - omega_0 * g_0)) * delta_tau) ^ 2) ∧
    psi omega_0 g_0 delta_tau =
      (((1 - Real.sqrt ((E omega_0 g_0 - omega_0) / E omega_0 g_0 /
            (1 - omega_0 * g_0))) / 2) ^ 2 -
       ((1 + Real.sqrt ((E omega_0 g_0 - omega_0) / E omega_0 g_0 /
            (1 - omega_0 * g_0))) / 2) ^ 2) *
        Real.exp (-2 * Real.sqrt (E omega_0 g_0 * (E omega_0 g_0 - omega_0) *
          (1 - omega_0 * g_0)) * delta_tau) ∧
    pi omega_0 g_0 = Real.pi * (1 - omega_0) / (E omega_0 g_0 - omega_0) := by
  refine ⟨?_, ?_, ?_, ?_, ?_, ?_, ?_⟩
  · simp only [transmission, rpow_half_eq_sqrt]
  · simp only [zeta_plus, rpow_half_eq_sqrt]
    ring
  · simp only [zeta_minus, rpow_half_eq_sqrt]
    ring
  · simp only [chi, zeta_plus, zeta_minus, transmission, rpow_half_eq_sqrt]
    ring
  · simp only [xi, zeta_plus, zeta_minus, transmission, rpow_half_eq_sqrt]
    ring
  · simp only [psi, zeta_plus, zeta_minus, transmission, rpow_half_eq_sqrt]
    ring
  · rfl

theorem c1_two_stream_coefficients_witness :
    ((0 : ℝ) ≤ 0 ∧ (0 : ℝ) ≤ E 0 0 ∧ (0 : ℝ) * 0 ≤ 1) ∧
    (transmission 0 0 1 =
      Real.exp (-2 * Real.sqrt (E 0 0 * (E 0 0 - 0) * (1 - 0 * 0)) * 1) ∧
    zeta_plus 0 0 = (1 + Real.sqrt ((E 0 0 - 0) / E 0 0 / (1 - 0 * 0))) / 2 ∧
    zeta_minus 0 0 = (1 - Real.sqrt ((E 0 0 - 0) / E 0 0 / (1 - 0 * 0))) / 2 ∧
    chi 0 0 1 =
      ((1 - Real.sqrt ((E 0 0 - 0) / E 0 0 / (1 - 0 * 0))) / 2) ^ 2 *
        Real.exp (-2 * Real.sqrt (E 0 0 * (E 0 0 - 0) * (1 - 0 * 0)) * 1) ^ 2 -
      ((1 + Real.sqrt ((E 0 0 - 0) / E 0 0 / (1 - 0 * 0))) / 2) ^ 2 ∧
    xi 0 0 1 =
      ((1 + Real.sqrt ((E 0 0 - 0) / E 0 0 / (1 - 0 * 0))) / 2) *
      ((1 - Real.sqrt ((E 0 0 - 0) / E 0 0 / (1 - 0 * 0))) / 2) *
      (1 - Real.exp (-2 * Real.sqrt (E 0 0 * (E 0 0 - 0) * (1 - 0 * 0)) * 1) ^ 2) ∧
    psi 0 0 1 =
      (((1 - Real.sqrt ((E 0 0 - 0) / E 0 0 / (1 - 0 * 0))) / 2) ^ 2 -
       ((1 + Real.sqrt ((E 0 0 - 0) / E 0 0 / (1 - 0 * 0))) / 2) ^ 2) *
        Real.exp (-2 * Real.sqrt (E 0 0 * (E 0 0 - 0) * (1 - 0 * 0)) * 1) ∧
    pi 0 0 = Real.pi * (1 - 0) / (E 0 0 - 0)) :=
  ⟨⟨le_rfl, by simp [E_zero], by norm_num⟩,
    c1_two_stream_coefficients 0 0 1 le_rfl (by simp [E_zero]) (by norm_num)⟩

/-- Source `delta_z_i`: layer height, Malik (2017) Equation 18:
`(k_B * T_i)/(m_bar * g) * log(p_i / p_{i+1})`. -/
noncomputable def delta_z_i (temperature_i pressure_i pressure_ip1 g m_bar : ℝ) : ℝ :=
  k_B * temperature_i / (m_bar * g) * Real.log (pressure_i / pressure_ip1)

/-- Source `c_p`: heat capacity, Malik (2017) Equation 25. -/
noncomputable def c_p (m_bar n_dof : ℝ) : ℝ :=
  (2 + n_dof) / (2 * m_bar) * k_B

/-- Source `delta_tau_i`: optical-depth increment of layer i, Malik (2017) Eqn 19. -/
noncomputable def delta_tau_i (kappa_i p_1 p_2 g : ℝ) : ℝ :=
  (p_1 - p_2) / g * kappa_i

/-- Source `rho_p`: local density. -/
noncomputable def rho_p (p_1 p_2 T_1 g m_bar : ℝ) : ℝ :=
  ((p_1 - p_2) / g) / delta_z_i T_1 p_1 p_2 g m_bar

/-- Source `gamma`: local temperature lapse rate. -/
noncomputable def gamma (temperature_i temperature_ip1 pressure_i pressure_ip1 g m_bar : ℝ) : ℝ :=
  (temperature_i - temperature_ip1) /
    delta_z_i temperature_i pressure_i pressure_ip1 g m_bar

/-- Source `gamma_adiabatic = g / c_p`. -/
noncomputable def gamma_adiabatic (g m_bar n_dof : ℝ) : ℝ :=
  g / c_p m_bar n_dof

/-- Source `delta_gamma`: lapse-rate excess over the adiabat. -/
noncomputable def delta_gamma
    (temperature_i temperature_ip1 pressure_i pressure_ip1 g m_bar n_dof : ℝ) : ℝ :=
  gamma temperature_i temperature_ip1 pressure_i pressure_ip1 g m_bar -
    gamma_adiabatic g m_bar n_dof

/-- Source `mixing_length = alpha * k_B * T_1 / (m_bar * g)`. -/
noncomputable def mixing_length (T_1 g alpha m_bar : ℝ) : ℝ :=
  alpha * k_B * T_1 / (m_bar * g)

/-- Source `convective_flux`: mixing-length convective flux, returned only in the
superadiabatic case `delta_gamma > 0`, else exactly zero. -/
noncomputable def convective_flux
    (temperature_i temperature_ip1 pressure_i pressure_ip1 g m_bar n_dof alpha : ℝ) : ℝ :=
  let rho := rho_p pressure_i pressure_ip1 temperature_i g m_bar
  let cp := c_p m_bar n_dof
  let lmix := mixing_length temperature_i g alpha m_bar
  let delta_g := delta_gamma temperature_i temperature_ip1 pressure_i pressure_ip1 g m_bar n_dof
  if delta_g > 0 then
    rho * cp * lmix ^ 2 * (g / temperature_i) ^ (0.5 : ℝ) * delta_g ^ (1.5 : ℝ)
  else 0

/-- Source `delta_t_i`: adaptive timestep for the radiative-equilibrium iteration,
Malik (2017) Equations 27-28.  Quantities in CGS, so the source's
normalisation of `|delta_F_i_dz * dz|` by `u.erg/u.cm**2/u.s` is the
identity. -/
noncomputable def delta_t_i (p_1 p_2 T_1 T_2 delta_F_i_dz g m_bar n_dof : ℝ) : ℝ :=
  let dz := delta_z_i T_1 p_1 p_2 g m_bar
  let f_i_pre := if delta_F_i_dz * dz ≠ 0
    then 1e5 / |delta_F_i_dz * dz| ^ (0.9 : ℝ) else 1
  let dt_radiative := c_p m_bar n_dof * p_1 / sigma_sb / g / T_1 ^ 3
  let d_gamma := delta_gamma T_1 T_2 p_1 p_2 g m_bar n_dof
  if d_gamma > 0 then
    f_i_pre * min dt_radiative ((T_1 / g / d_gamma) ^ (0.5 : ℝ))
  else f_i_pre * dt_radiative

theorem k_B_pos : 0 < k_B := by norm_num [k_B]

theorem delta_z_i_pos {T p1 p2 g m_bar : ℝ} (hT : 0 < T) (h2 : 0 < p2)
    (h12 : p2 < p1) (hg : 0 < g) (hm : 0 < m_bar) :
    0 < delta_z_i T p1 p2 g m_bar := by
  unfold delta_z_i
  have hlog : 0 < Real.log (p1 / p2) :=
    Real.log_pos ((one_lt_div h2).mpr h12)
  have h1 : 0 < k_B * T / (m_bar * g) :=
    div_pos (mul_pos k_B_pos hT) (mul_pos hm hg)
  exact mul_pos h1 hlog

/-- C7: `convective_flux` is exactly zero when the lapse rate does not
exceed the adiabatic one; when it does, the flux is the mixing-length form,
strictly positive, and strictly monotone in the lapse-rate excess
`delta_gamma` (varied through the upper-layer temperature, which enters only
through `delta_gamma`). -/
theorem c7_convective_flux (Ti Tip1 p1 p2 g m_bar n_dof alpha : ℝ)
    (hp2 : 0 < p2) (hp : p2 < p1) (hT : 0 < Ti) (hg : 0 < g) (hm : 0 < m_bar)
    (hn : 0 < 2 + n_dof) (ha : 0 < alpha) :
    (gamma Ti Tip1 p1 p2 g m_bar ≤ gamma_adiabatic g m_bar n_dof →
      convective_flux Ti Tip1 p1 p2 g m_bar n_dof alpha = 0) ∧
    (gamma_adiabatic g m_bar n_dof < gamma Ti Tip1 p1 p2 g m_bar →
      convective_flux Ti Tip1 p1 p2 g m_bar n_dof alpha =
        rho_p p1 p2 Ti g m_bar * c_p m_bar n_dof * mixing_length Ti g alpha m_bar ^ 2 *
          Real.sqrt (g / Ti) *
          delta_gamma Ti Tip1 p1 p2 g m_bar n_dof ^ (1.5 : ℝ) ∧
      0 < convective_flux Ti Tip1 p1 p2 g m_bar n_dof alpha) ∧
    (∀ Tip1' : ℝ, 0 < delta_gamma Ti Tip1' p1 p2 g m_bar n_dof →
      delta_gamma Ti Tip1' p1 p2 g m_bar n_dof <
        delta_gamma Ti Tip1 p1 p2 g m_bar n_dof →
      convective_flux Ti Tip1' p1 p2 g m_bar n_dof alpha <
        convective_flux Ti Tip1 p1 p2 g m_bar n_dof alpha) := by
  have hpre : 0 < rho_p p1 p2 Ti g m_bar * c_p m_bar n_dof *
      mixing_length Ti g alpha m_bar ^ 2 * (g / Ti) ^ (0.5 : ℝ) := by
    have hdz := delta_z_i_pos hT hp2 hp hg hm
    have hrho : 0 < rho_p p1 p2 Ti g m_bar :=
      div_pos (div_pos (by linarith) hg) hdz
    have hcp : 0 < c_p m_bar n_dof :=
      mul_pos (div_pos hn (by linarith)) k_B_pos
    have hl : 0 < mixing_length Ti g alpha m_bar :=
      div_pos (mul_pos (mul_pos ha k_B_pos) hT) (mul_pos hm hg)
    have hgt : 0 < (g / Ti) ^ (0.5 : ℝ) :=
      Real.rpow_pos_of_pos (div_pos hg hT) _
    positivity
  refine ⟨?_, ?_, ?_⟩
  · intro h
    have hd : ¬ (delta_gamma Ti Tip1 p1 p2 g m_bar n_dof > 0) := by
      simp only [delta_gamma]
      linarith
    simp only [convective_flux]
    rw [if_neg hd]
  · intro h
    have hd : delta_gamma Ti Tip1 p1 p2 g m_bar n_dof > 0 := by
      simp only [delta_gamma]
      linarith
    constructor
    · simp only [convective_flux]
      rw [if_pos hd, rpow_half_eq_sqrt]
    · simp only [convective_flux]
      rw [if_pos hd]
      exact mul_pos hpre (Real.rpow_pos_of_pos hd _)
  · intro T' h1 h2
    have hd : delta_gamma Ti Tip1 p1 p2 g m_bar n_dof > 0 := lt_trans h1 h2
    simp only [convective_flux]
    rw [if_pos hd, if_pos h1]
    exact mul_lt_mul_of_pos_left
      (Real.rpow_lt_rpow (le_of_lt h1) h2 (by norm_num)) hpre

theorem c7_convective_flux_witness :
    ((0 : ℝ) < 1 ∧ (1 : ℝ) < 2 ∧ (0 : ℝ) < 300 ∧ (0 : ℝ) < 981 ∧
      (0 : ℝ) < m_p ∧ (0 : ℝ) < 2 + 5 ∧ (0 : ℝ) < 1) ∧
    (gamma 300 300 2 1 981 m_p ≤ gamma_adiabatic 981 m_p 5 →
      convective_flux 300 300 2 1 981 m_p 5 1 = 0) :=
  ⟨⟨by norm_num, by norm_num, by norm_num, by norm_num, by norm_num [m_p],
      by norm_num, by norm_num⟩,
    (c7_convective_flux 300 300 2 1 981 m_p 5 1 (by norm_num) (by norm_num)
      (by norm_num) (by norm_num) (by norm_num [m_p]) (by norm_num) (by norm_num)).1⟩

/-- C4 (amended): the adaptive timestep is the radiative timescale
`c_p·p/(sigma_sb·g·T³)`, capped by the convective timescale
`√(T/(g·delta_gamma))` when `delta_gamma > 0`, the whole scaled by the
pre-factor `f = 1e5 / |delta_F_i_dz · delta_z|^0.9` (the flux divergence
multiplied by the layer height, and the exponent applies to the denominator
only) when that product is nonzero, and by `f = 1` otherwise. -/
theorem c4_timestep_formula (p_1 p_2 T_1 T_2 delta_F_i_dz g m_bar n_dof : ℝ) :
    delta_t_i p_1 p_2 T_1 T_2 delta_F_i_dz g m_bar n_dof =
      (if delta_F_i_dz * delta_z_i T_1 p_1 p_2 g m_bar ≠ 0
        then 1e5 / |delta_F_i_dz * delta_z_i T_1 p_1 p_2 g m_bar| ^ (0.9 : ℝ)
        else 1) *
      (if 0 < delta_gamma T_1 T_2 p_1 p_2 g m_bar n_dof
        then min (c_p m_bar n_dof * p_1 / sigma_sb / g / T_1 ^ 3)
          (Real.sqrt (T_1 / (g * delta_gamma T_1 T_2 p_1 p_2 g m_bar n_dof)))
        else c_p m_bar n_dof * p_1 / sigma_sb / g / T_1 ^ 3) := by
  simp only [delta_t_i, rpow_half_eq_sqrt, gt_iff_lt, div_div]
  split_ifs <;> ring

/-- The pressure at the lower boundary of the layer used in the C4
counterexample: chosen so that the layer height `delta_z_i` comes out to
exactly `1e5` cm with `T = 300`, `g = 981`, `m_bar = 2.4 m_p`, `p_2 = 1e6`. -/
noncomputable def c4_p_1 : ℝ :=
  1e6 * Real.exp (1e5 * (2.4 * m_p * 981) / (k_B * 300))

theorem c4_delta_z : delta_z_i 300 c4_p_1 1e6 981 (2.4 * m_p) = 1e5 := by
  have hk : (k_B : ℝ) ≠ 0 := by norm_num [k_B]
  have hm : (m_p : ℝ) ≠ 0 := by norm_num [m_p]
  unfold delta_z_i c4_p_1
  rw [mul_comm (1e6 : ℝ), mul_div_assoc]
  norm_num
  field_simp
  ring

theorem rpow_ten_pow_nine_tenths : ((1e10 : ℝ)) ^ (0.9 : ℝ) = 1e9 := by
  have h1 : (1e10 : ℝ) = (10 : ℝ) ^ ((10 : ℕ) : ℝ) := by
    rw [Real.rpow_natCast]
    norm_num
  rw [h1, ← Real.rpow_mul (by norm_num : (0 : ℝ) ≤ 10)]
  have h2 : ((10 : ℕ) : ℝ) * 0.9 = ((9 : ℕ) : ℝ) := by norm_num
  rw [h2, Real.rpow_natCast]
  norm_num

/-- C4 counterexample: at a concrete layer (`p_1 = c4_p_1`, `p_2 = 1e6`,
`T_1 = T_2 = 300`, `delta_F_i_dz = 1e-5`, `g = 981`, `m_bar = 2.4 m_p`,
`n_dof = 5`, all CGS, layer height exactly `1e5` cm), the code's timestep is
`1e5 · dt_rad` (pre-factor `1e5/|delta_F·dz|^0.9 = 1e5`), while the claim's
pre-factor `(1e5/|delta_F_i_dz|)^0.9 = (1e10)^0.9 = 1e9` would give
`1e9 · dt_rad`; the two differ since `dt_rad > 0`. -/
theorem c4_counterexample :
    delta_t_i c4_p_1 1e6 300 300 1e-5 981 (2.4 * m_p) 5 ≠
      (1e5 / |(1e-5 : ℝ)|) ^ (0.9 : ℝ) *
        (c_p (2.4 * m_p) 5 * c4_p_1 / sigma_sb / 981 / 300 ^ 3) := by
  have hcp : 0 < c_p (2.4 * m_p) 5 := by norm_num [c_p, m_p, k_B]
  have hdt : 0 < c_p (2.4 * m_p) 5 * c4_p_1 / sigma_sb / 981 / 300 ^ 3 := by
    have hp1 : 0 < c4_p_1 := by
      unfold c4_p_1
      positivity
    have hs : 0 < sigma_sb := by norm_num [sigma_sb]
    positivity
  have hdg : delta_gamma 300 300 c4_p_1 1e6 981 (2.4 * m_p) 5 < 0 := by
    unfold delta_gamma gamma gamma_adiabatic
    rw [sub_self, zero_div]
    have : 0 < 981 / c_p (2.4 * m_p) 5 := by positivity
    linarith
  have hclaim : (1e5 / |(1e-5 : ℝ)|) ^ (0.9 : ℝ) = 1e9 := by
    rw [show |(1e-5 : ℝ)| = 1e-5 from abs_of_pos (by norm_num),
      show (1e5 : ℝ) / 1e-5 = 1e10 by norm_num, rpow_ten_pow_nine_tenths]
  rw [hclaim]
  simp only [delta_t_i, c4_delta_z]
  rw [if_neg (not_lt.mpr hdg.le)]
  rw [if_pos (by norm_num : (1e-5 : ℝ) * 1e5 ≠ 0)]
  rw [show |(1e-5 : ℝ) * 1e5| = 1 by norm_num, Real.one_rpow]
  intro h
  rw [div_one] at h
  nlinarith [hdt, h]

/-- Model of `lax.fori_loop(lower, upper, body, init)`: apply `body i` for
`i = lower, ..., upper - 1` in order. -/
def fori_loop {α : Type} (lower upper : ℕ) (body : ℕ → α → α) (init : α) : α :=
  (List.range' lower (upper - lower)).foldl (fun s i => body i s) init

/-- Model of `lax.scan`: left fold that also stacks the per-element outputs. -/
def scan {γ α β : Type} (f : γ → α → γ × β) (init : γ) (xs : List α) : γ × List β :=
  xs.foldl (fun acc x => ((f acc.1 x).1, acc.2 ++ [(f acc.1 x).2])) (init, [])

/-- Piecewise-linear interpolation over a list of `(x, y)` knots with
constant extrapolation, the semantics of `jnp.interp` for an increasing
abscissa grid. -/
noncomputable def interpSeg (x : ℝ) : List (ℝ × ℝ) → ℝ
  | [] => 0
  | [(_, y0)] => y0
  | (x0, y0) :: (x1, y1) :: rest =>
    if x ≤ x0 then y0
    else if x ≤ x1 then y0 + (y1 - y0) * (x - x0) / (x1 - x0)
    else interpSeg x ((x1, y1) :: rest)

/-- Model of `jnp.interp(x, xp, fp)`. -/
noncomputable def jnp_interp (x : ℝ) (xp fp : List ℝ) : ℝ :=
  interpSeg x (xp.zip fp)

/-- The opacity interpolation of `emit`'s loop body: the inner
`lax.scan` interpolates `offline_opacities[i, :, j']` over the temperature
grid at every entry of `temps`, the outer scan stacks this over the
wavelength index, and the source then keeps column 0 (the interpolation at
`temps[0]`) via `[:, 0]`.  Dynamic gather indices are clamped as jax does
inside `jit`. -/
noncomputable def kappa_interp (offline_opacities : ℕ → ℕ → ℕ → ℝ)
    (temps : ℕ → ℝ) (n_temps : ℕ) (n_layers : ℕ) (n_wavelengths : ℕ)
    (opacity_grid_temperatures : List ℝ) (i j : ℕ) : ℝ :=
  let interp_over_T : ℕ → ℝ → ℝ → ℝ × ℝ := fun j' carry x =>
    (carry, jnp_interp x opacity_grid_temperatures
      ((List.range opacity_grid_temperatures.length).map
        (fun k => offline_opacities (min i (n_layers - 1)) k j')))
  let outer : ℝ → ℕ → ℝ × List ℝ := fun carry j' =>
    (carry, (scan (interp_over_T j') 0.0 ((List.range n_temps).map temps)).2)
  ((scan outer 0.0 (List.range n_wavelengths)).2.getD j []).getD 0 0

/-- Source `body_fun` of `emit`: one step of the layer recurrence.  Gather indices
(`pressures[i+1]`, `temps[i+1]`, `fluxes_down[i+1]`, ...) are clamped to the
valid range and scatter updates (`.at[i+1].set`, `.at[i].set`) with
out-of-bounds indices are dropped, following jax's `jit` semantics.  The
state pair models the source's `vstack`-packed `[fluxes_up; fluxes_down]`
carry. -/
noncomputable def body_fun (offline_opacities : ℕ → ℕ → ℕ → ℝ)
    (temps : ℕ → ℝ) (n_temps : ℕ) (pressures : ℕ → ℝ) (n_layers : ℕ)
    (lam : ℕ → ℝ) (n_wavelengths : ℕ) (g : ℝ)
    (opacity_grid_temperatures : List ℝ)
    (i : ℕ) (fluxes : (ℕ → ℕ → ℝ) × (ℕ → ℕ → ℝ)) :
    (ℕ → ℕ → ℝ) × (ℕ → ℕ → ℝ) :=
  let fluxes_up := fluxes.1
  let fluxes_down := fluxes.2
  let p_2 := pressures (min (i + 1) (n_layers - 1))
  let T_2 := temps (min (i + 1) (n_temps - 1))
  let p_1 := pressures (min i (n_layers - 1))
  let T_1 := temps (min i (n_temps - 1))
  let delta_tau : ℕ → ℝ := fun j =>
    delta_tau_i (kappa_interp offline_opacities temps n_temps n_layers
      n_wavelengths opacity_grid_temperatures i j) p_1 p_2 g
  -- Single scattering albedo, Deitrick (2020) Eqn 17 (source: `omega_0 = 0.0`)
  let omega_0 : ℝ := 0
  let F_2_down : ℕ → ℝ := fun j => fluxes_down (min (i + 1) (n_layers - 1)) j
  let F_1_up : ℕ → ℝ := fun j => fluxes_up (min i (n_layers - 1)) j
  (fun k j => if i + 1 < n_layers ∧ k = i + 1 then
      (propagate_fluxes (lam j) (F_1_up j) (F_2_down j) T_1 T_2 (delta_tau j)
        omega_0 0 0.5).1
    else fluxes_up k j,
   fun k j => if i < n_layers ∧ k = i then
      (propagate_fluxes (lam j) (F_1_up j) (F_2_down j) T_1 T_2 (delta_tau j)
        omega_0 0 0.5).2
    else fluxes_down k j)

/-- Source `emit`: one full pass of the layer recurrence.  `fluxes_up` starts at
zero, `fluxes_down` is seeded with `F_TOA` at index `n_layers - 1` (the
source's `.at[-1].set(F_TOA)`; the pressure grid is ordered by decreasing
pressure, so the last index is the topmost layer), and
`lax.fori_loop(1, n_layers, body_fun, ...)` runs the recurrence.  `m_bar`
and `alpha` are accepted and unused, as in the source. -/
noncomputable def emit (offline_opacities : ℕ → ℕ → ℕ → ℝ)
    (temperatures : ℕ → ℝ) (n_temps : ℕ) (pressures : ℕ → ℝ) (n_layers : ℕ)
    (lam : ℕ → ℝ) (n_wavelengths : ℕ) (F_TOA : ℕ → ℝ) (g _m_bar _alpha : ℝ)
    (opacity_grid_temperatures : List ℝ) : (ℕ → ℕ → ℝ) × (ℕ → ℕ → ℝ) :=
  let fluxes_up : ℕ → ℕ → ℝ := fun _ _ => 0
  let fluxes_down : ℕ → ℕ → ℝ := fun k j => if k = n_layers - 1 then F_TOA j else 0
  fori_loop 1 n_layers
    (body_fun offline_opacities temperatures n_temps pressures n_layers lam
      n_wavelengths g opacity_grid_temperatures)
    (fluxes_up, fluxes_down)

/-- Invariant preservation along a left fold (the shape of `fori_loop`). -/
theorem foldl_body_inv {α : Type} (body : ℕ → α → α) (P : α → Prop) :
    ∀ (L : List ℕ) (s : α), (∀ i ∈ L, ∀ t, P t → P (body i t)) → P s →
      P (L.foldl (fun s i => body i s) s) := by
  intro L
  induction L with
  | nil => exact fun s _ hs => hs
  | cons a L ih =>
    intro s hstep hs
    exact ih (body a s)
      (fun i hi t ht => hstep i (List.mem_cons_of_mem a hi) t ht)
      (hstep a (List.mem_cons_self a L) s hs)

section EmitInvariant

variable (op : ℕ → ℕ → ℕ → ℝ) (temps : ℕ → ℝ) (n_temps : ℕ)
  (press : ℕ → ℝ) (n_layers : ℕ) (lam : ℕ → ℝ) (n_wavelengths : ℕ) (g : ℝ)
  (Tgrid : List ℝ)

/-- Loop iterations with `i ≥ 1` never write the two bottom rows of
`fluxes_up` (the scatter index is `i + 1 ≥ 2`). -/
theorem body_fun_up_frame (i : ℕ) (hi : 1 ≤ i)
    (s : (ℕ → ℕ → ℝ) × (ℕ → ℕ → ℝ)) (k : ℕ) (hk : k ≤ 1) (j : ℕ) :
    (body_fun op temps n_temps press n_layers lam n_wavelengths g Tgrid i s).1 k j
      = s.1 k j := by
  simp only [body_fun]
  rw [if_neg]
  rintro ⟨-, hk'⟩
  omega

/-- Loop iteration `i` writes `fluxes_down` only at row `i`. -/
theorem body_fun_down_frame (i : ℕ)
    (s : (ℕ → ℕ → ℝ) × (ℕ → ℕ → ℝ)) (k : ℕ) (hk : k ≠ i) (j : ℕ) :
    (body_fun op temps n_temps press n_layers lam n_wavelengths g Tgrid i s).2 k j
      = s.2 k j := by
  simp only [body_fun]
  rw [if_neg]
  rintro ⟨-, h⟩
  exact hk h

theorem delta_tau_i_same (kappa_i p g : ℝ) : delta_tau_i kappa_i p p g = 0 := by
  simp [delta_tau_i]

/-- The final loop iteration `i = n_layers - 1` rewrites the top row of
`fluxes_down` with its current value: the clamped gathers give
`p_1 = p_2` (so `delta_tau = 0`) and `T_1 = T_2`, and the transparent-layer
identity returns `F_2_down` unchanged. -/
theorem body_fun_down_top (hn : 2 ≤ n_layers) (hT : n_temps ≤ n_layers)
    (s : (ℕ → ℕ → ℝ) × (ℕ → ℕ → ℝ)) (F_TOA : ℕ → ℝ)
    (hs : ∀ j, s.2 (n_layers - 1) j = F_TOA j) (j : ℕ) :
    (body_fun op temps n_temps press n_layers lam n_wavelengths g Tgrid
      (n_layers - 1) s).2 (n_layers - 1) j = F_TOA j := by
  simp only [body_fun]
  rw [if_pos (show n_layers - 1 < n_layers ∧ True from ⟨by omega, trivial⟩)]
  have hmin1 : min (n_layers - 1) (n_layers - 1) = n_layers - 1 := min_self _
  have hmin2 : min (n_layers - 1 + 1) (n_layers - 1) = n_layers - 1 := by omega
  have hminT1 : min (n_layers - 1) (n_temps - 1) = n_temps - 1 := by omega
  have hminT2 : min (n_layers - 1 + 1) (n_temps - 1) = n_temps - 1 := by omega
  rw [hmin1, hmin2, hminT1, hminT2, delta_tau_i_same, propagate_transparent]
  exact hs j

end EmitInvariant

/-- C3: `emit` seeds `flux_down` at the topmost layer (index
`n_layers - 1`, the last one: pressures decrease with index) with the
incident flux `F_TOA` and that row still holds `F_TOA` in the returned
field; `flux_up` at the bottom layer (index 0) keeps its initial value
zero. -/
theorem c3_emit_boundary_rows (op : ℕ → ℕ → ℕ → ℝ) (temps : ℕ → ℝ)
    (n_temps : ℕ) (press : ℕ → ℝ) (n_layers : ℕ) (lam : ℕ → ℝ)
    (n_wavelengths : ℕ) (F_TOA : ℕ → ℝ) (g m_bar alpha : ℝ) (Tgrid : List ℝ)
    (hn : 2 ≤ n_layers) (hT : n_temps ≤ n_layers) (j : ℕ) :
    (emit op temps n_temps press n_layers lam n_wavelengths F_TOA g m_bar
        alpha Tgrid).2 (n_layers - 1) j = F_TOA j ∧
    (emit op temps n_temps press n_layers lam n_wavelengths F_TOA g m_bar
        alpha Tgrid).1 0 j = 0 := by
  have key :
      (∀ j', (emit op temps n_temps press n_layers lam n_wavelengths F_TOA g
        m_bar alpha Tgrid).2 (n_layers - 1) j' = F_TOA j') ∧
      (∀ j', (emit op temps n_temps press n_layers lam n_wavelengths F_TOA g
        m_bar alpha Tgrid).1 0 j' = 0) := by
    simp only [emit, fori_loop]
    refine foldl_body_inv _
      (fun s : (ℕ → ℕ → ℝ) × (ℕ → ℕ → ℝ) =>
        (∀ j', s.2 (n_layers - 1) j' = F_TOA j') ∧ (∀ j', s.1 0 j' = 0))
      (List.range' 1 (n_layers - 1)) _ ?_ ?_
    · intro i hi t ht
      rw [List.mem_range'_1] at hi
      refine ⟨?_, ?_⟩
      · intro j'
        rcases eq_or_ne i (n_layers - 1) with h | h
        · subst h
          exact body_fun_down_top op temps n_temps press n_layers lam
            n_wavelengths g Tgrid hn hT t F_TOA ht.1 j'
        · rw [body_fun_down_frame op temps n_temps press n_layers lam
            n_wavelengths g Tgrid i t (n_layers - 1) (Ne.symm h) j']
          exact ht.1 j'
      · intro j'
        rw [body_fun_up_frame op temps n_temps press n_layers lam
          n_wavelengths g Tgrid i hi.1 t 0 (by omega) j']
        exact ht.2 j'
    · exact ⟨fun j' => if_pos rfl, fun j' => rfl⟩
  exact ⟨key.1 j, key.2 j⟩

theorem c3_emit_boundary_rows_witness :
    (2 ≤ 2 ∧ 2 ≤ 2) ∧
    ((emit (fun _ _ _ => 0) (fun _ => 0) 2 (fun _ => 1) 2 (fun _ => 1) 1
        (fun _ => 7) 1 1 1 []).2 (2 - 1) 0 = 7 ∧
     (emit (fun _ _ _ => 0) (fun _ => 0) 2 (fun _ => 1) 2 (fun _ => 1) 1
        (fun _ => 7) 1 1 1 []).1 0 0 = 0) :=
  ⟨⟨le_rfl, le_rfl⟩,
    c3_emit_boundary_rows (fun _ _ _ => 0) (fun _ => 0) 2 (fun _ => 1) 2
      (fun _ => 1) 1 (fun _ => 7) 1 1 1 [] le_rfl le_rfl 0⟩

/-- C10: the layer loop runs from index 1 and writes `fluxes_up` only at
index `i + 1 ≥ 2`, so rows 0 and 1 of the returned `flux_up` keep their
initial value zero, for every input. -/
theorem c10_flux_up_bottom_rows (op : ℕ → ℕ → ℕ → ℝ) (temps : ℕ → ℝ)
    (n_temps : ℕ) (press : ℕ → ℝ) (n_layers : ℕ) (lam : ℕ → ℝ)
    (n_wavelengths : ℕ) (F_TOA : ℕ → ℝ) (g m_bar alpha : ℝ) (Tgrid : List ℝ)
    (j : ℕ) :
    (emit op temps n_temps press n_layers lam n_wavelengths F_TOA g m_bar
        alpha Tgrid).1 0 j = 0 ∧
    (emit op temps n_temps press n_layers lam n_wavelengths F_TOA g m_bar
        alpha Tgrid).1 1 j = 0 := by
  have key :
      (∀ j', (emit op temps n_temps press n_layers lam n_wavelengths F_TOA g
        m_bar alpha Tgrid).1 0 j' = 0) ∧
      (∀ j', (emit op temps n_temps press n_layers lam n_wavelengths F_TOA g
        m_bar alpha Tgrid).1 1 j' = 0) := by
    simp only [emit, fori_loop]
    refine foldl_body_inv _
      (fun s : (ℕ → ℕ → ℝ) × (ℕ → ℕ → ℝ) =>
        (∀ j', s.1 0 j' = 0) ∧ (∀ j', s.1 1 j' = 0))
      (List.range' 1 (n_layers - 1)) _ ?_ ?_
    · intro i hi t ht
      rw [List.mem_range'_1] at hi
      refine ⟨fun j' => ?_, fun j' => ?_⟩
      · rw [body_fun_up_frame op temps n_temps press n_layers lam
          n_wavelengths g Tgrid i hi.1 t 0 (by omega) j']
        exact ht.1 j'
      · rw [body_fun_up_frame op temps n_temps press n_layers lam
          n_wavelengths g Tgrid i hi.1 t 1 le_rfl j']
        exact ht.2 j'
    · exact ⟨fun j' => rfl, fun j' => rfl⟩
  exact ⟨key.1 j, key.2 j⟩

theorem interpSeg_zero (x : ℝ) :
    ∀ l : List (ℝ × ℝ), (∀ p ∈ l, p.2 = 0) → interpSeg x l = 0
  | [], _ => rfl
  | [(x0, y0)], h => by
    have hy : y0 = 0 := h (x0, y0) (by simp)
    simp [interpSeg, hy]
  | (x0, y0) :: (x1, y1) :: rest, h => by
    have h0 : y0 = 0 := h (x0, y0) (by simp)
    have h1 : y1 = 0 := h (x1, y1) (by simp)
    subst h0
    subst h1
    have ih := interpSeg_zero x ((x1, 0) :: rest)
      (fun p hp => h p (List.mem_cons_of_mem _ hp))
    unfold interpSeg
    split_ifs <;> simp [ih]

/-- A fold that only stacks outputs produces the map of its output
function. -/
theorem foldl_stack {γ α β : Type} (v : α → β) :
    ∀ (xs : List α) (init : γ) (acc : List β),
      xs.foldl (fun acc x => (acc.1, acc.2 ++ [v x])) (init, acc)
        = (init, acc ++ xs.map v) := by
  intro xs
  induction xs with
  | nil => intro init acc; simp
  | cons a xs ih =>
    intro init acc
    simp only [List.foldl_cons, List.map_cons]
    rw [ih]
    simp

/-- A `scan` whose step does not change the carry stacks exactly the map of
its output function. -/
theorem scan_snd_const {γ α β : Type} (f : γ → α → γ × β) (v : α → β)
    (hf : ∀ c a, f c a = (c, v a)) (init : γ) (xs : List α) :
    scan f init xs = (init, xs.map v) := by
  unfold scan
  have hfun : (fun (acc : γ × List β) (x : α) =>
      ((f acc.1 x).1, acc.2 ++ [(f acc.1 x).2])) =
      fun acc x => (acc.1, acc.2 ++ [v x]) := by
    funext acc x
    rw [hf]
  rw [hfun]
  have := foldl_stack v xs init []
  simpa using this

theorem getD_mem_or_default {α : Type} (l : List α) (d : α) (i : ℕ) :
    l.getD i d ∈ l ∨ l.getD i d = d := by
  by_cases hi : i < l.length
  · left
    rw [List.getD_eq_getElem l d hi]
    exact List.getElem_mem hi
  · right
    exact List.getD_eq_default l d (le_of_not_lt hi)

theorem getD_getD_zero (L : List (List ℝ)) (h : ∀ l ∈ L, ∀ y ∈ l, y = 0)
    (j : ℕ) : ((L.getD j []).getD 0 0 : ℝ) = 0 := by
  rcases getD_mem_or_default L [] j with hl | hl
  · rcases getD_mem_or_default (L.getD j []) 0 0 with hy | hy
    · exact h _ hl _ hy
    · exact hy
  · rw [hl]
    rfl

/-- With an identically-zero opacity table, the interpolated opacity of
`emit`'s loop body is zero at every index. -/
theorem kappa_interp_zero (temps : ℕ → ℝ) (n_temps n_layers n_wavelengths : ℕ)
    (Tgrid : List ℝ) (i j : ℕ) :
    kappa_interp (fun _ _ _ => 0) temps n_temps n_layers n_wavelengths
      Tgrid i j = 0 := by
  simp only [kappa_interp]
  rw [scan_snd_const _
    (fun j' => (scan (fun (c : ℝ) (x : ℝ) =>
      (c, jnp_interp x Tgrid ((List.range Tgrid.length).map
        (fun _ => (0 : ℝ))))) 0.0 ((List.range n_temps).map temps)).2)
    (fun c a => rfl)]
  have hval : ∀ x : ℝ, jnp_interp x Tgrid
      ((List.range Tgrid.length).map (fun _ => (0 : ℝ))) = 0 := by
    intro x
    unfold jnp_interp
    refine interpSeg_zero x _ (fun p hp => ?_)
    have := (List.of_mem_zip hp).2
    simp only [List.mem_map] at this
    obtain ⟨-, -, h⟩ := this
    exact h.symm
  dsimp only
  refine getD_getD_zero _ ?_ j
  intro l hl y hy
  simp only [List.mem_map] at hl
  obtain ⟨j', -, hj'⟩ := hl
  rw [scan_snd_const _
    (fun x => jnp_interp x Tgrid ((List.range Tgrid.length).map
      (fun _ => (0 : ℝ)))) (fun c a => rfl)] at hj'
  subst hj'
  simp only [List.mem_map] at hy
  obtain ⟨x, -, hx⟩ := hy
  rw [← hx, hval]

theorem delta_tau_i_kappa_zero (p_1 p_2 g : ℝ) : delta_tau_i 0 p_1 p_2 g = 0 := by
  simp [delta_tau_i]

/-- A three-layer atmosphere with an identically-zero opacity table and a
constant temperature profile: the loop body is transparent at every step,
and the top-of-atmosphere flux appears unchanged in the interior row 1 of
the returned `flux_down` — whatever the pressure grid `(a, b, c)` is. -/
theorem emit_three_layers_zero_opacity (a b c T g m_bar alpha lamv F : ℝ)
    (Tgrid : List ℝ) :
    (emit (fun _ _ _ => 0) (fun _ => T) 3
      (fun k => if k = 0 then a else if k = 1 then b else c) 3
      (fun _ => lamv) 1 (fun _ => F) g m_bar alpha Tgrid).2 1 0 = F := by
  simp only [emit, fori_loop]
  have hrange : List.range' 1 (3 - 1) = [1, 2] := rfl
  rw [hrange]
  simp only [List.foldl_cons, List.foldl_nil]
  rw [body_fun_down_frame (fun _ _ _ => 0) (fun _ => T) 3
    (fun k => if k = 0 then a else if k = 1 then b else c) 3
    (fun _ => lamv) 1 g Tgrid 2 _ 1 (by norm_num) 0]
  simp only [body_fun, kappa_interp_zero, delta_tau_i_kappa_zero]
  norm_num
  rw [propagate_transparent]

/-- C9 counterexample: `emit` contains no entry validation.  On the
concrete three-layer pressure grid `(1, 3, 2)` — non-monotonic, since the
pressure *increases* from layer 0 to layer 1 — `emit` does not reject the
input: the layer recurrence runs and propagates the top-of-atmosphere flux
`7` into the interior row 1 of `flux_down`, so flux computation proceeds
instead of stopping with a descriptive error. -/
theorem c9_counterexample :
    ((1 : ℝ) < 3 ∧ (2 : ℝ) < 3) ∧
    (emit (fun _ _ _ => 0) (fun _ => (300 : ℝ)) 3
      (fun k => if k = 0 then (1 : ℝ) else if k = 1 then 3 else 2) 3
      (fun _ => 1) 1 (fun _ => 7) 1 1 1 [0, 1]).2 1 0 = 7 ∧ (7 : ℝ) ≠ 0 :=
  ⟨⟨by norm_num, by norm_num⟩,
    emit_three_layers_zero_opacity 1 3 2 300 1 1 1 1 7 [0, 1], by norm_num⟩

/-- C9 (amended): `emit` performs no validation of its inputs.  Even when
the pressure grid violates the monotonicity invariant (`a < b`: pressure
increases with altitude index at the bottom layer pair), the layer
recurrence runs as usual and the returned flux field is computed — here,
with a zero opacity table and a constant temperature profile, the
top-of-atmosphere flux `F` reaches the interior row 1 of `flux_down`. -/
theorem c9_no_entry_validation (a b c T g m_bar alpha lamv F : ℝ)
    (Tgrid : List ℝ) (hbad : a < b) :
    (emit (fun _ _ _ => 0) (fun _ => T) 3
      (fun k => if k = 0 then a else if k = 1 then b else c) 3
      (fun _ => lamv) 1 (fun _ => F) g m_bar alpha Tgrid).2 1 0 = F :=
  emit_three_layers_zero_opacity a b c T g m_bar alpha lamv F Tgrid

theorem c9_no_entry_validation_witness :
    (2 : ℝ) < 5 ∧
    (emit (fun _ _ _ => 0) (fun _ => (100 : ℝ)) 3
      (fun k => if k = 0 then (2 : ℝ) else if k = 1 then 5 else 1) 3
      (fun _ => 2) 1 (fun _ => 9) 2 1 1 []).2 1 0 = 9 :=
  ⟨by norm_num, c9_no_entry_validation 2 5 1 100 2 1 1 2 9 [] (by norm_num)⟩

end Frei
